import Mathlib

/-!
Shallow embedding of the pjvds/logrus logging core.

The file `logger.go` of the repository defines the `Logger` type, its
constructor `New`, the six `IsX` threshold predicates, and the convenience
methods that delegate to a fresh `Entry`.  The `Entry`/`Level`/hooks code is
not part of the given sources, so those collaborators are modelled from the
specification: the severity pipeline is rendered as a pure function from a
finalized record to a trace of observable effects (format, hook fire,
fallback report, sink write, termination).
-/

namespace Logrus

/-- Modelled from the spec: `Level` is an integer-like unsigned ordinal
(`uint8` in the original), ascending from Panic (most severe) to Debug
(least severe); the level declarations live outside the given sources. -/
abbrev Level := Nat

/-- Modelled from the spec: the most severe rank, the least ordinal value. -/
def PanicLevel : Level := 0

/-- Modelled from the spec: fatal rank. -/
def FatalLevel : Level := 1

/-- Modelled from the spec: error rank. -/
def ErrorLevel : Level := 2

/-- Modelled from the spec: warning rank. -/
def WarnLevel : Level := 3

/-- Modelled from the spec: info rank, the default threshold. -/
def InfoLevel : Level := 4

/-- Modelled from the spec: debug rank, the most permissive ordinal. -/
def DebugLevel : Level := 5

/-- Opaque stand-in for the arbitrary-typed values (`interface{}`) that a
caller may attach as field values. -/
inductive Value where
  | str (s : String)
  | int (n : Int)
  | boolean (b : Bool)
  deriving DecidableEq, Repr

/-- Renders a field value as a string, for the default text formatter. -/
def Value.render : Value → String
  | .str s => s
  | .int n => toString n
  | .boolean b => toString b

/-- Fields: a string-keyed mapping grown by copy-on-attach; later entries
shadow earlier ones with the same key. -/
abbrev Fields := List (String × Value)

/-- The output sink of a logger (`io.Writer` in the original); only its
identity is observable to this core. -/
inductive Sink where
  | stdout
  | stderr
  | custom (id : Nat)
  deriving DecidableEq, Repr

/-- A finalized log record as seen by formatters and hooks: accumulated
fields, message, level and timestamp. -/
structure Record where
  data : Fields
  message : String
  level : Level
  time : Nat
  deriving DecidableEq, Repr

/-- Modelled from the spec: a hook observes finalized records and its fire
operation signals success (`none`) or failure (`some` error text); the hook
interface lives outside the given sources. -/
structure Hook where
  fire : Record → Option String

/-- One observable effect of a terminal logging call.  The three
`...Reported` effects are the fallback error channel of the spec: a
formatter failure, an individual hook failure, and a sink write failure are
each reported there and never raised to the caller. -/
inductive Effect where
  | formatReported (err : String)
  | formatted (bytes : String)
  | hookFired (r : Record)
  | hookReported (err : String)
  | wrote (sink : Sink) (bytes : String)
  | writeReported (err : String)
  | exited (code : Nat)
  | panicked (msg : String)
  deriving DecidableEq, Repr

/-- Modelled from the spec: the default text formatter (`TextFormatter`);
its concrete rendering is external to the core, so a fixed total rendering
stands in for it. -/
def textFormat (r : Record) : String :=
  "time=" ++ toString r.time ++ " level=" ++ toString r.level
    ++ " msg=" ++ r.message
    ++ String.join (r.data.map fun kv => " " ++ kv.1 ++ "=" ++ kv.2.render)
    ++ "\n"

/-- The `Logger` struct of `logger.go`: output sink, per-level hooks
registry, formatter, and level threshold.  The mutex only serializes the
write and has no counterpart in this sequential model.

The formatter collaborator of the spec returns bytes together with an
optional error, and on a failure the call continues with a best-effort
fallback representation; the model carries that pair as two total
projections: `formatter` is the byte sequence the call goes on to use (the
formatter's rendering, or the best-effort fallback when the formatter
fails) and `formatErr` the failure it reports to the fallback channel.
Likewise the external writer behind the sink may reject a write;
`writeErr` is its outcome for given bytes, reported to the fallback
channel and never raised. -/
structure Logger where
  out : Sink
  hooks : Level → List Hook
  formatter : Record → String
  formatErr : Record → Option String
  writeErr : String → Option String
  level : Level

/-- `New` from `logger.go`: stdout sink, default text formatter (which
never fails), empty hooks, a non-rejecting stdout writer, threshold
Info. -/
def New : Logger :=
  { out := Sink.stdout, hooks := fun _ => [], formatter := textFormat,
    formatErr := fun _ => none, writeErr := fun _ => none,
    level := InfoLevel }

/-- `IsDebug` from `logger.go`: `logger.Level >= DebugLevel`. -/
def Logger.IsDebug (logger : Logger) : Bool :=
  decide (logger.level ≥ DebugLevel)

/-- `IsInfo` from `logger.go`: `logger.Level >= InfoLevel`. -/
def Logger.IsInfo (logger : Logger) : Bool :=
  decide (logger.level ≥ InfoLevel)

/-- `IsWarn` from `logger.go`: `logger.Level >= WarnLevel`. -/
def Logger.IsWarn (logger : Logger) : Bool :=
  decide (logger.level ≥ WarnLevel)

/-- `IsError` from `logger.go`: `logger.Level >= ErrorLevel`. -/
def Logger.IsError (logger : Logger) : Bool :=
  decide (logger.level ≥ ErrorLevel)

/-- `IsFatal` from `logger.go`: `logger.Level >= FatalLevel`. -/
def Logger.IsFatal (logger : Logger) : Bool :=
  decide (logger.level ≥ FatalLevel)

/-- `IsPanic` from `logger.go`: `logger.Level >= PanicLevel`. -/
def Logger.IsPanic (logger : Logger) : Bool :=
  decide (logger.level ≥ PanicLevel)

/-- One in-flight log record: owning logger, accumulated fields, message
and level (the latter two fixed only at a terminal call). -/
structure Entry where
  logger : Logger
  data : Fields
  message : String
  level : Level

/-- Modelled from the spec: `NewEntry` creates a fresh entry bound to the
logger with no fields and an empty message (zero level ordinal); the entry
code lives outside the given sources. -/
def NewEntry (logger : Logger) : Entry :=
  { logger := logger, data := [], message := "", level := PanicLevel }

/-- Modelled from the spec: attaching a field returns a new entry layering
the key over the prior fields, never mutating the receiver. -/
def Entry.WithField (e : Entry) (key : String) (value : Value) : Entry :=
  { e with data := e.data ++ [(key, value)] }

/-- Modelled from the spec: attaching a whole mapping layers every pair of
it over the prior fields, keys of the argument taking precedence. -/
def Entry.WithFields (e : Entry) (fields : Fields) : Entry :=
  { e with data := e.data ++ fields }

/-- Modelled from the spec: finalization stamps the time and fixes message
and level into a record. -/
def finalize (e : Entry) (time : Nat) (level : Level) (msg : String) :
    Record :=
  { data := e.data, message := msg, level := level, time := time }

/-- Modelled from the spec: space-joined message building of the plain
variants. -/
def sprint (args : List Value) : String :=
  String.intercalate " " (args.map Value.render)

/-- Modelled from the spec: the line variants differ from the plain ones by
the implicit trailing newline. -/
def sprintln (args : List Value) : String :=
  sprint args ++ "\n"

/-- Modelled from the spec: printf-style message building; the template
rendering is external (the fmt package), so a fixed total function stands
in for it. -/
def sprintf (format : String) (args : List Value) : String :=
  format ++ String.join (args.map Value.render)

/-- Modelled from the spec: hooks registered for the record's level fire in
registration order; a failing fire is reported to the fallback channel and
does not stop later hooks. -/
def fireHooks : List Hook → Record → List Effect
  | [], _ => []
  | h :: hs, r =>
    (match h.fire r with
      | none => [Effect.hookFired r]
      | some err => [Effect.hookFired r, Effect.hookReported err])
      ++ fireHooks hs r

/-- Modelled from the spec: the ungated tail of a terminal call — finalize,
format (a formatter failure is reported to the fallback channel and the
call continues with the best-effort bytes), fire the hooks of this level,
then write the bytes to the logger's sink (a rejected write is reported to
the fallback channel after the attempt; the call still returns
normally). -/
def Entry.dispatch (e : Entry) (time : Nat) (level : Level) (msg : String) :
    List Effect :=
  let r := finalize e time level msg
  let bytes := e.logger.formatter r
  (match e.logger.formatErr r with
    | none => [Effect.formatted bytes]
    | some err => [Effect.formatReported err, Effect.formatted bytes])
    ++ fireHooks (e.logger.hooks level) r
    ++ [Effect.wrote e.logger.out bytes]
    ++ (match e.logger.writeErr bytes with
        | none => []
        | some err => [Effect.writeReported err])

/-- Modelled from the spec: Fatal terminates the process after the write
and Panic unwinds with the rendered message; other levels return
normally. -/
def termEffects (level : Level) (msg : String) : List Effect :=
  if level = FatalLevel then [Effect.exited 1]
  else if level = PanicLevel then [Effect.panicked msg]
  else []

/-- Modelled from the spec: the terminal call `log(level, message)` — the
gate suppresses the whole call (no format, no hook fire, no write) when the
event level is strictly less severe than the threshold, and otherwise
dispatches and, for Fatal and Panic, terminates. -/
def Entry.log (e : Entry) (time : Nat) (level : Level) (msg : String) :
    List Effect :=
  if e.logger.level ≥ level then
    e.dispatch time level msg ++ termEffects level msg
  else []

/-- Modelled from the spec: gated Debug-level plain call on an entry. -/
def Entry.Debug (e : Entry) (time : Nat) (args : List Value) : List Effect :=
  e.log time DebugLevel (sprint args)

/-- Modelled from the spec: gated Info-level plain call on an entry. -/
def Entry.Info (e : Entry) (time : Nat) (args : List Value) : List Effect :=
  e.log time InfoLevel (sprint args)

/-- Modelled from the spec: the Print variant records level Info but
bypasses the threshold gate. -/
def Entry.Print (e : Entry) (time : Nat) (args : List Value) : List Effect :=
  e.dispatch time InfoLevel (sprint args)

/-- Modelled from the spec: gated Warn-level plain call on an entry. -/
def Entry.Warn (e : Entry) (time : Nat) (args : List Value) : List Effect :=
  e.log time WarnLevel (sprint args)

/-- Modelled from the spec: gated Error-level plain call on an entry. -/
def Entry.Error (e : Entry) (time : Nat) (args : List Value) : List Effect :=
  e.log time ErrorLevel (sprint args)

/-- Modelled from the spec: gated Fatal-level plain call on an entry. -/
def Entry.Fatal (e : Entry) (time : Nat) (args : List Value) : List Effect :=
  e.log time FatalLevel (sprint args)

/-- Modelled from the spec: gated Panic-level plain call on an entry. -/
def Entry.Panic (e : Entry) (time : Nat) (args : List Value) : List Effect :=
  e.log time PanicLevel (sprint args)

/-- Modelled from the spec: gated Debug-level formatted call. -/
def Entry.Debugf (e : Entry) (time : Nat) (format : String)
    (args : List Value) : List Effect :=
  e.log time DebugLevel (sprintf format args)

/-- Modelled from the spec: gated Info-level formatted call. -/
def Entry.Infof (e : Entry) (time : Nat) (format : String)
    (args : List Value) : List Effect :=
  e.log time InfoLevel (sprintf format args)

/-- Modelled from the spec: the formatted Print variant records level Info
but bypasses the threshold gate. -/
def Entry.Printf (e : Entry) (time : Nat) (format : String)
    (args : List Value) : List Effect :=
  e.dispatch time InfoLevel (sprintf format args)

/-- Modelled from the spec: gated Warn-level formatted call. -/
def Entry.Warnf (e : Entry) (time : Nat) (format : String)
    (args : List Value) : List Effect :=
  e.log time WarnLevel (sprintf format args)

/-- Modelled from the spec: gated Error-level formatted call. -/
def Entry.Errorf (e : Entry) (time : Nat) (format : String)
    (args : List Value) : List Effect :=
  e.log time ErrorLevel (sprintf format args)

/-- Modelled from the spec: gated Fatal-level formatted call. -/
def Entry.Fatalf (e : Entry) (time : Nat) (format : String)
    (args : List Value) : List Effect :=
  e.log time FatalLevel (sprintf format args)

/-- Modelled from the spec: gated Panic-level formatted call. -/
def Entry.Panicf (e : Entry) (time : Nat) (format : String)
    (args : List Value) : List Effect :=
  e.log time PanicLevel (sprintf format args)

/-- Modelled from the spec: gated Debug-level line call. -/
def Entry.Debugln (e : Entry) (time : Nat) (args : List Value) :
    List Effect :=
  e.log time DebugLevel (sprintln args)

/-- Modelled from the spec: gated Info-level line call. -/
def Entry.Infoln (e : Entry) (time : Nat) (args : List Value) :
    List Effect :=
  e.log time InfoLevel (sprintln args)

/-- Modelled from the spec: the line Print variant records level Info but
bypasses the threshold gate. -/
def Entry.Println (e : Entry) (time : Nat) (args : List Value) :
    List Effect :=
  e.dispatch time InfoLevel (sprintln args)

/-- Modelled from the spec: gated Warn-level line call. -/
def Entry.Warnln (e : Entry) (time : Nat) (args : List Value) :
    List Effect :=
  e.log time WarnLevel (sprintln args)

/-- Modelled from the spec: gated Error-level line call. -/
def Entry.Errorln (e : Entry) (time : Nat) (args : List Value) :
    List Effect :=
  e.log time ErrorLevel (sprintln args)

/-- Modelled from the spec: gated Fatal-level line call. -/
def Entry.Fatalln (e : Entry) (time : Nat) (args : List Value) :
    List Effect :=
  e.log time FatalLevel (sprintln args)

/-- Modelled from the spec: gated Panic-level line call. -/
def Entry.Panicln (e : Entry) (time : Nat) (args : List Value) :
    List Effect :=
  e.log time PanicLevel (sprintln args)

/-- `WithField` from `logger.go`: `NewEntry(logger).WithField(key, value)`. -/
def Logger.WithField (logger : Logger) (key : String) (value : Value) :
    Entry :=
  (NewEntry logger).WithField key value

/-- `WithFields` from `logger.go`: `NewEntry(logger).WithFields(fields)`. -/
def Logger.WithFields (logger : Logger) (fields : Fields) : Entry :=
  (NewEntry logger).WithFields fields

/-- `Debugf` from `logger.go`. -/
def Logger.Debugf (logger : Logger) (time : Nat) (format : String)
    (args : List Value) : List Effect :=
  (NewEntry logger).Debugf time format args

/-- `Infof` from `logger.go`. -/
def Logger.Infof (logger : Logger) (time : Nat) (format : String)
    (args : List Value) : List Effect :=
  (NewEntry logger).Infof time format args

/-- `Printf` from `logger.go`: delegates to the entry's `Printf`. -/
def Logger.Printf (logger : Logger) (time : Nat) (format : String)
    (args : List Value) : List Effect :=
  (NewEntry logger).Printf time format args

/-- `Warnf` from `logger.go`. -/
def Logger.Warnf (logger : Logger) (time : Nat) (format : String)
    (args : List Value) : List Effect :=
  (NewEntry logger).Warnf time format args

/-- `Warningf` from `logger.go`: delegates to the entry's `Warnf`. -/
def Logger.Warningf (logger : Logger) (time : Nat) (format : String)
    (args : List Value) : List Effect :=
  (NewEntry logger).Warnf time format args

/-- `Errorf` from `logger.go`. -/
def Logger.Errorf (logger : Logger) (time : Nat) (format : String)
    (args : List Value) : List Effect :=
  (NewEntry logger).Errorf time format args

/-- `Fatalf` from `logger.go`. -/
def Logger.Fatalf (logger : Logger) (time : Nat) (format : String)
    (args : List Value) : List Effect :=
  (NewEntry logger).Fatalf time format args

/-- `Panicf` from `logger.go`. -/
def Logger.Panicf (logger : Logger) (time : Nat) (format : String)
    (args : List Value) : List Effect :=
  (NewEntry logger).Panicf time format args

/-- `Debug` from `logger.go`. -/
def Logger.Debug (logger : Logger) (time : Nat) (args : List Value) :
    List Effect :=
  (NewEntry logger).Debug time args

/-- `Info` from `logger.go`. -/
def Logger.Info (logger : Logger) (time : Nat) (args : List Value) :
    List Effect :=
  (NewEntry logger).Info time args

/-- `Print` from `logger.go`: the source delegates to the entry's `Info`,
not to the entry's `Print`. -/
def Logger.Print (logger : Logger) (time : Nat) (args : List Value) :
    List Effect :=
  (NewEntry logger).Info time args

/-- `Warn` from `logger.go`. -/
def Logger.Warn (logger : Logger) (time : Nat) (args : List Value) :
    List Effect :=
  (NewEntry logger).Warn time args

/-- `Warning` from `logger.go`: delegates to the entry's `Warn`. -/
def Logger.Warning (logger : Logger) (time : Nat) (args : List Value) :
    List Effect :=
  (NewEntry logger).Warn time args

/-- `Error` from `logger.go`. -/
def Logger.Error (logger : Logger) (time : Nat) (args : List Value) :
    List Effect :=
  (NewEntry logger).Error time args

/-- `Fatal` from `logger.go`. -/
def Logger.Fatal (logger : Logger) (time : Nat) (args : List Value) :
    List Effect :=
  (NewEntry logger).Fatal time args

/-- `Panic` from `logger.go`. -/
def Logger.Panic (logger : Logger) (time : Nat) (args : List Value) :
    List Effect :=
  (NewEntry logger).Panic time args

/-- `Debugln` from `logger.go`. -/
def Logger.Debugln (logger : Logger) (time : Nat) (args : List Value) :
    List Effect :=
  (NewEntry logger).Debugln time args

/-- `Infoln` from `logger.go`. -/
def Logger.Infoln (logger : Logger) (time : Nat) (args : List Value) :
    List Effect :=
  (NewEntry logger).Infoln time args

/-- `Println` from `logger.go`: delegates to the entry's `Println`. -/
def Logger.Println (logger : Logger) (time : Nat) (args : List Value) :
    List Effect :=
  (NewEntry logger).Println time args

/-- `Warnln` from `logger.go`. -/
def Logger.Warnln (logger : Logger) (time : Nat) (args : List Value) :
    List Effect :=
  (NewEntry logger).Warnln time args

/-- `Warningln` from `logger.go`: delegates to the entry's `Warnln`. -/
def Logger.Warningln (logger : Logger) (time : Nat) (args : List Value) :
    List Effect :=
  (NewEntry logger).Warnln time args

/-- `Errorln` from `logger.go`. -/
def Logger.Errorln (logger : Logger) (time : Nat) (args : List Value) :
    List Effect :=
  (NewEntry logger).Errorln time args

/-- `Fatalln` from `logger.go`. -/
def Logger.Fatalln (logger : Logger) (time : Nat) (args : List Value) :
    List Effect :=
  (NewEntry logger).Fatalln time args

/-- `Panicln` from `logger.go`. -/
def Logger.Panicln (logger : Logger) (time : Nat) (args : List Value) :
    List Effect :=
  (NewEntry logger).Panicln time args

/-- The severity ordering of the spec, Panic > Fatal > Error > Warn > Info
> Debug: a level is strictly more severe exactly when its ordinal is
smaller. -/
def moreSevere (a b : Level) : Prop := a < b

instance (a b : Level) : Decidable (moreSevere a b) :=
  inferInstanceAs (Decidable (a < b))

/-- A threshold is at least as permissive as a level when it is not
strictly more severe than that level. -/
def atLeastAsPermissive (t x : Level) : Prop := ¬ moreSevere t x

instance (t x : Level) : Decidable (atLeastAsPermissive t x) :=
  inferInstanceAs (Decidable (¬ moreSevere t x))

/-- A logger configured at the Error threshold, more severe than Info. -/
def errLogger : Logger := { New with level := ErrorLevel }

/-- A logger configured at the most permissive Debug threshold. -/
def debugLogger : Logger := { New with level := DebugLevel }

/-- A hook whose fire operation always fails. -/
def failHook : Hook := { fire := fun _ => some "boom" }

/-- A logger on which all three failure kinds occur: its formatter fails
on every record, the always-failing hook is registered for the Error
level, and its sink rejects every write. -/
def faultyLogger : Logger :=
  { New with
      hooks := fun L => if L = ErrorLevel then [failHook] else [],
      formatErr := fun _ => some "fmtboom",
      writeErr := fun _ => some "wrboom" }

/-- C1: counter-evidence for the failing input. With the threshold at Error
(more severe than Info), `Logger.Print` — which the source delegates to the
entry's `Info` rather than the entry's `Print` — produces no effect at all,
while `Logger.Printf` and `Logger.Println` (delegating to the ungated Print
variants) and the entry-level `Print` itself still format and write. -/
theorem print_gated_printf_ungated :
    Logger.Print errLogger 0 [Value.str "x"] = []
      ∧ Logger.Printf errLogger 0 "x" [] ≠ []
      ∧ Logger.Println errLogger 0 [Value.str "x"] ≠ []
      ∧ Entry.Print (NewEntry errLogger) 0 [Value.str "x"] ≠ [] := by
  refine ⟨rfl, ?_, ?_, ?_⟩ <;>
    simp [Logger.Printf, Logger.Println, Entry.Printf, Entry.Println,
      Entry.Print, Entry.dispatch]

/-- C2: a gated (non-Print) terminal call is suppressed — empty effect
trace, so no format, no hook fire, no write — exactly when the event level
is strictly less severe than the logger's threshold; when the event passes
the gate, the write of the formatted record to the logger's sink is among
the effects. -/
theorem log_suppressed_iff (e : Entry) (time : Nat) (level : Level)
    (msg : String) :
    (Entry.log e time level msg = [] ↔ moreSevere e.logger.level level)
      ∧ (level ≤ e.logger.level →
          Effect.wrote e.logger.out
              (e.logger.formatter (finalize e time level msg))
            ∈ Entry.log e time level msg) := by
  constructor
  · unfold Entry.log moreSevere
    by_cases h : e.logger.level ≥ level
    · rw [if_pos h]
      simp [Entry.dispatch]
      exact h
    · rw [if_neg h]
      simp
      exact Nat.lt_of_not_le h
  · intro h
    unfold Entry.log
    rw [if_pos h]
    simp [Entry.dispatch]

/-- C2 witness: at the default Info threshold, an Info-level call writes
the formatted record. -/
theorem log_suppressed_iff_witness :
    Effect.wrote New.out (New.formatter (finalize (NewEntry New) 0 InfoLevel "hi"))
      ∈ Entry.log (NewEntry New) 0 InfoLevel "hi" :=
  (log_suppressed_iff (NewEntry New) 0 InfoLevel "hi").2 (by decide)

/-- C3: each of the six threshold predicates returns true exactly when the
configured threshold is at least as permissive as the named level under
the severity ordering Panic > Fatal > Error > Warn > Info > Debug. -/
theorem is_predicates_iff_permissive (logger : Logger) :
    (logger.IsDebug = true ↔ atLeastAsPermissive logger.level DebugLevel)
      ∧ (logger.IsInfo = true ↔ atLeastAsPermissive logger.level InfoLevel)
      ∧ (logger.IsWarn = true ↔ atLeastAsPermissive logger.level WarnLevel)
      ∧ (logger.IsError = true ↔ atLeastAsPermissive logger.level ErrorLevel)
      ∧ (logger.IsFatal = true ↔ atLeastAsPermissive logger.level FatalLevel)
      ∧ (logger.IsPanic = true ↔ atLeastAsPermissive logger.level PanicLevel) := by
  simp [Logger.IsDebug, Logger.IsInfo, Logger.IsWarn, Logger.IsError,
    Logger.IsFatal, Logger.IsPanic, atLeastAsPermissive, moreSevere,
    Nat.not_lt]

/-- C3 witness: the default logger's threshold (Info) is at least as
permissive as Info, so `IsInfo` holds there. -/
theorem is_predicates_iff_permissive_witness : New.IsInfo = true :=
  (is_predicates_iff_permissive New).2.1.mpr (by decide)

/-- C4: `New` yields the stdout sink, the default text formatter, an empty
hooks registry and the Info threshold; hence on a fresh logger the five
predicates from Info up hold and `IsDebug` is false. -/
theorem new_logger_defaults :
    New.out = Sink.stdout ∧ New.formatter = textFormat
      ∧ (∀ L : Level, New.hooks L = []) ∧ New.level = InfoLevel
      ∧ New.IsInfo = true ∧ New.IsWarn = true ∧ New.IsError = true
      ∧ New.IsFatal = true ∧ New.IsPanic = true ∧ New.IsDebug = false :=
  ⟨rfl, rfl, fun _ => rfl, rfl, rfl, rfl, rfl, rfl, rfl, rfl⟩

/-- C5: the `Warning` spellings are pure aliases of the `Warn` spellings —
for every logger, time and argument list the plain, formatted and line
variants produce identical effect traces. -/
theorem warning_alias_of_warn (logger : Logger) (time : Nat)
    (format : String) (args : List Value) :
    Logger.Warningf logger time format args = Logger.Warnf logger time format args
      ∧ Logger.Warning logger time args = Logger.Warn logger time args
      ∧ Logger.Warningln logger time args = Logger.Warnln logger time args :=
  ⟨rfl, rfl, rfl⟩

/-- C6: every logger-level convenience call equals the like-named call on a
fresh entry bound to that logger with no fields and an empty message (the
`Warning` spellings corresponding to the entry's `Warn` methods). -/
theorem logger_delegates_to_fresh_entry (logger : Logger) (time : Nat)
    (key : String) (value : Value) (fields : Fields) (format : String)
    (args : List Value) :
    (NewEntry logger).logger = logger
      ∧ (NewEntry logger).data = [] ∧ (NewEntry logger).message = ""
      ∧ Logger.WithField logger key value = (NewEntry logger).WithField key value
      ∧ Logger.WithFields logger fields = (NewEntry logger).WithFields fields
      ∧ Logger.Debug logger time args = (NewEntry logger).Debug time args
      ∧ Logger.Info logger time args = (NewEntry logger).Info time args
      ∧ Logger.Warn logger time args = (NewEntry logger).Warn time args
      ∧ Logger.Warning logger time args = (NewEntry logger).Warn time args
      ∧ Logger.Error logger time args = (NewEntry logger).Error time args
      ∧ Logger.Fatal logger time args = (NewEntry logger).Fatal time args
      ∧ Logger.Panic logger time args = (NewEntry logger).Panic time args
      ∧ Logger.Debugf logger time format args = (NewEntry logger).Debugf time format args
      ∧ Logger.Infof logger time format args = (NewEntry logger).Infof time format args
      ∧ Logger.Warnf logger time format args = (NewEntry logger).Warnf time format args
      ∧ Logger.Warningf logger time format args = (NewEntry logger).Warnf time format args
      ∧ Logger.Errorf logger time format args = (NewEntry logger).Errorf time format args
      ∧ Logger.Fatalf logger time format args = (NewEntry logger).Fatalf time format args
      ∧ Logger.Panicf logger time format args = (NewEntry logger).Panicf time format args
      ∧ Logger.Debugln logger time args = (NewEntry logger).Debugln time args
      ∧ Logger.Infoln logger time args = (NewEntry logger).Infoln time args
      ∧ Logger.Warnln logger time args = (NewEntry logger).Warnln time args
      ∧ Logger.Warningln logger time args = (NewEntry logger).Warnln time args
      ∧ Logger.Errorln logger time args = (NewEntry logger).Errorln time args
      ∧ Logger.Fatalln logger time args = (NewEntry logger).Fatalln time args
      ∧ Logger.Panicln logger time args = (NewEntry logger).Panicln time args :=
  ⟨rfl, rfl, rfl, rfl, rfl, rfl, rfl, rfl, rfl, rfl, rfl, rfl, rfl, rfl,
    rfl, rfl, rfl, rfl, rfl, rfl, rfl, rfl, rfl, rfl, rfl, rfl⟩

/-- If a hook of the list fails on the record, the fallback report of its
error is among the firing effects. -/
theorem mem_fireHooks_of_fail (hs : List Hook) (r : Record) (h : Hook)
    (err : String) (hmem : h ∈ hs) (hfail : h.fire r = some err) :
    Effect.hookReported err ∈ fireHooks hs r := by
  induction hs with
  | nil => cases hmem
  | cons a as ih =>
    cases hmem with
    | head => simp [fireHooks, hfail]
    | tail _ hm =>
      cases hfa : a.fire r <;> simp [fireHooks, hfa, ih hm]

/-- C7: failures are reported on the side channel, never through the call
signature.  For a call that passes the gate: a formatter failure surfaces
as a fallback-report effect (and the best-effort bytes are still used), a
failing hook's error surfaces as a fallback-report effect, a rejected sink
write surfaces as a fallback-report effect, and the write attempt itself
still happens; the call's result is the plain effect trace — the severity
methods return no value to the caller and `WithField`/`WithFields` return
only an `Entry`, so no error value is part of any signature. -/
theorem failures_side_channel (e : Entry) (time : Nat) (level : Level)
    (msg : String) (h : Hook) (ferr herr werr : String)
    (hpass : level ≤ e.logger.level) :
    (e.logger.formatErr (finalize e time level msg) = some ferr →
        Effect.formatReported ferr ∈ Entry.log e time level msg)
      ∧ (h ∈ e.logger.hooks level →
          h.fire (finalize e time level msg) = some herr →
          Effect.hookReported herr ∈ Entry.log e time level msg)
      ∧ (e.logger.writeErr (e.logger.formatter (finalize e time level msg))
            = some werr →
          Effect.writeReported werr ∈ Entry.log e time level msg)
      ∧ Effect.wrote e.logger.out
          (e.logger.formatter (finalize e time level msg))
        ∈ Entry.log e time level msg := by
  unfold Entry.log
  rw [if_pos hpass]
  refine ⟨fun hfmt => ?_, fun hmem hfail => ?_, fun hwr => ?_, ?_⟩
  · simp [Entry.dispatch, hfmt]
  · have hx := mem_fireHooks_of_fail (e.logger.hooks level)
      (finalize e time level msg) h herr hmem hfail
    simp [Entry.dispatch, hx]
  · simp [Entry.dispatch, hwr]
  · simp [Entry.dispatch]

/-- C7 witness: on the logger whose formatter, registered hook and sink
all fail, an Error-level call at the default threshold reports the three
failures on the fallback channel and still attempts the write. -/
theorem failures_side_channel_witness :
    Effect.formatReported "fmtboom"
        ∈ Entry.log (NewEntry faultyLogger) 0 ErrorLevel "m"
      ∧ Effect.hookReported "boom"
          ∈ Entry.log (NewEntry faultyLogger) 0 ErrorLevel "m"
      ∧ Effect.writeReported "wrboom"
          ∈ Entry.log (NewEntry faultyLogger) 0 ErrorLevel "m"
      ∧ Effect.wrote faultyLogger.out
          (faultyLogger.formatter (finalize (NewEntry faultyLogger) 0 ErrorLevel "m"))
        ∈ Entry.log (NewEntry faultyLogger) 0 ErrorLevel "m" := by
  have hx := failures_side_channel (NewEntry faultyLogger) 0 ErrorLevel "m"
    failHook "fmtboom" "boom" "wrboom" (by decide)
  exact ⟨hx.1 rfl, hx.2.1 (by simp [NewEntry, faultyLogger, ErrorLevel]) rfl,
    hx.2.2.1 rfl, hx.2.2.2⟩

/-- C9: the six threshold predicates form a monotone chain — a threshold
permissive enough for a less severe level is permissive enough for every
more severe one. -/
theorem is_predicates_monotone (logger : Logger) :
    (logger.IsDebug = true → logger.IsInfo = true)
      ∧ (logger.IsInfo = true → logger.IsWarn = true)
      ∧ (logger.IsWarn = true → logger.IsError = true)
      ∧ (logger.IsError = true → logger.IsFatal = true)
      ∧ (logger.IsFatal = true → logger.IsPanic = true) := by
  simp only [Logger.IsDebug, Logger.IsInfo, Logger.IsWarn, Logger.IsError,
    Logger.IsFatal, Logger.IsPanic, decide_eq_true_eq, ge_iff_le,
    DebugLevel, InfoLevel, WarnLevel, ErrorLevel, FatalLevel, PanicLevel]
  exact ⟨fun h => Nat.le_trans (by decide) h, fun h => Nat.le_trans (by decide) h,
    fun h => Nat.le_trans (by decide) h, fun h => Nat.le_trans (by decide) h,
    fun h => Nat.le_trans (by decide) h⟩

/-- C9 witness: for a logger at the Debug threshold, `IsDebug` holds, and
the chain yields `IsInfo`. -/
theorem is_predicates_monotone_witness : debugLogger.IsInfo = true :=
  (is_predicates_monotone debugLogger).1 rfl

/-- C10: `IsPanic` holds for every logger, whatever its threshold, because
the predicate tests the threshold against the least ordinal. -/
theorem isPanic_always_true (logger : Logger) : logger.IsPanic = true := by
  simp [Logger.IsPanic, PanicLevel]

/-- C10 witness: even at the most severe threshold, Panic itself, the
predicate holds. -/
theorem isPanic_always_true_witness :
    Logger.IsPanic { New with level := PanicLevel } = true :=
  isPanic_always_true { New with level := PanicLevel }

end Logrus
